import Mathlib

/-! Verification development for the SQL-first complaints chatbot backend
    (src/backend/sql_agent.py and src/backend/database.py).

    Strings are modelled as lists of characters.  External collaborators are
    modelled as explicit inputs: the completion service as the text (or
    exception message) it returns, the JSON library as a parse oracle, and
    the DuckDB store as a function from SQL text to rows/columns or an error
    message.  All repository logic (SQL cleanup and auto-correction, the
    visualization classifier, the response formatter's post-processing, the
    chat control flow) is translated from the source. -/

namespace RagSpec

abbrev Str := List Char

/-- Shorthand: string literal to character list. -/
def lit (s : String) : Str := s.toList

/-- Backquote character (code 96), kept out of literals. -/
def bq : Char := Char.ofNat 96

/-- Double-quote character (code 34). -/
def qu : Char := Char.ofNat 34

/-- Left brace (code 123). -/
def lbr : Char := Char.ofNat 123

/-- Right brace (code 125). -/
def rbr : Char := Char.ofNat 125

/-- Python's whitespace class for `str.strip` and the regex class. -/
def isPySpace (c : Char) : Bool :=
  c = ' ' || c = '\t' || c = '\n' || c = '\r' || c = Char.ofNat 11 || c = Char.ofNat 12

/-- `s.strip()` -/
def pyStrip (s : Str) : Str :=
  ((s.dropWhile isPySpace).reverse.dropWhile isPySpace).reverse

/-- `s.upper()` (ASCII). -/
def toUpperStr (s : Str) : Str := s.map Char.toUpper

/-- `s.lower()` (ASCII). -/
def toLowerStr (s : Str) : Str := s.map Char.toLower

/-- `s.startswith(p)` -/
def startsWith : Str → Str → Bool
  | _, [] => true
  | [], _ :: _ => false
  | c :: cs, p :: ps => c = p && startsWith cs ps

/-- `p in s` (substring containment). -/
def containsSub (p : Str) : Str → Bool
  | [] => startsWith [] p
  | c :: cs => startsWith (c :: cs) p || containsSub p cs

/-- Case-insensitive containment, `p` given in upper case
    (models `p in s.upper()`). -/
def containsCI (p : Str) (s : Str) : Bool := containsSub p (toUpperStr s)

/-- `s.upper().index(p)`: index of the first occurrence. -/
def indexOfSub (p : Str) : Str → Option Nat
  | [] => if startsWith [] p then some 0 else none
  | c :: cs =>
    if startsWith (c :: cs) p then some 0 else (indexOfSub p cs).map (· + 1)

/-- Insert `ins` at position `i` (`s[:i] + ins + s[i:]`). -/
def insertAt (s : Str) (i : Nat) (ins : Str) : Str :=
  s.take i ++ ins ++ s.drop i

/-- `s.rstrip(';')` -/
def rstripSemi (s : Str) : Str :=
  (s.reverse.dropWhile (fun c => c = ';')).reverse

/-- Value of a run of decimal digits. -/
def natOfDigits (ds : Str) : Nat :=
  ds.foldl (fun a c => a * 10 + (c.toNat - 48)) 0

/-- A cell value coming back from the store or appearing in a row dict.
    DuckDB values are abstracted to integers, strings and NULL/None. -/
inductive Value where
  | vint (i : Int)
  | vstr (s : Str)
  | vnull
deriving DecidableEq

/-- `str(v)` -/
def pyStr : Value → Str
  | .vint i => if i < 0 then '-' :: Nat.toDigits 10 i.natAbs else Nat.toDigits 10 i.natAbs
  | .vstr s => s
  | .vnull => lit "None"

/-- Python truthiness of a cell value. -/
def truthy : Value → Bool
  | .vint i => i ≠ 0
  | .vstr s => s ≠ []
  | .vnull => false

/-- `isinstance(v, (int, float))` (floats are outside the model). -/
def isNumericValue : Option Value → Bool
  | some (.vint _) => true
  | _ => false

/-- A row dict: insertion-ordered association list with distinct keys. -/
abbrev Row := List (Str × Value)

/-- `r.get(k)` -/
def rowGet (r : Row) (k : Str) : Option Value :=
  (r.find? (fun p => p.1 == k)).map Prod.snd

/-- `list(r.keys())` -/
def rowKeys (r : Row) : List Str := r.map Prod.fst

/-- `list(r.values())` -/
def rowValues (r : Row) : List Value := r.map Prod.snd

/-- Python dict assignment: an existing key keeps its position, the value is
    updated; a new key is appended. -/
def dictInsert (r : Row) (k : Str) (v : Value) : Row :=
  match r with
  | [] => [(k, v)]
  | (k0, v0) :: rest =>
    if k0 = k then (k0, v) :: rest else (k0, v0) :: dictInsert rest k v

/-- `dict(zip(columns, row))` -/
def dictOfZip (cols : List Str) (vals : List Value) : Row :=
  (List.zip cols vals).foldl (fun r p => dictInsert r p.1 p.2) []

/-- What the analytical store returns for a successful query:
    the fetched rows and the cursor's column names. -/
structure StoreResult where
  rows : List (List Value)
  cols : List Str
deriving DecidableEq

/-- `database.execute_query`: run the SQL against the store; on success the
    rows are zipped with the column names into dicts; on any store exception
    the function returns no rows, no columns and the store's message. -/
def execute_query (store : Str → Except Str StoreResult) (sql : Str) :
    List Row × List Str × Option Str :=
  match store sql with
  | .ok res => (res.rows.map (fun row => dictOfZip res.cols row), res.cols, none)
  | .error e => ([], [], some e)

/-- `detail_cols` of `_guess_visualization` (sql_agent.py line 555). -/
def detail_cols : List Str :=
  [lit "nr_reclamatie", lit "observatii", lit "observatie", lit "detalii",
   lit "descriere", lit "adresa", lit "telefon", lit "email", lit "client",
   lit "nume_client", lit "id", lit "nr", lit "numar", lit "cod"]

/-- `time_cols` (line 578). -/
def time_cols : List Str :=
  [lit "luna", lit "month", lit "an", lit "year", lit "data", lit "zi",
   lit "saptamana", lit "trimestru"]

/-- `numeric_cols` (line 582). -/
def numeric_cols : List Str :=
  [lit "numar", lit "numar_reclamatii", lit "total", lit "count",
   lit "valoare", lit "valoare_totala", lit "suma", lit "medie", lit "procent"]

/-- `_guess_visualization(results, columns)` (sql_agent.py lines 547-604),
    translated clause by clause. -/
def guess_visualization (results : List Row) (columns : List Str) : Str :=
  if results.length = 0 then lit "none"
  else if results.length = 1 ∧ columns.length ≤ 2 then lit "none"
  else
    let cols_lower := columns.map toLowerStr
    if cols_lower.contains (lit "observatii") ∨ cols_lower.contains (lit "observatie") then
      lit "none"
    else if cols_lower.all (fun c =>
        (detail_cols ++ [lit "data_reclamatie", lit "data", lit "magazin"]).contains c) then
      lit "none"
    else
      let non_date_cols := cols_lower.filter (fun c =>
        !(c == lit "data_reclamatie" || c == lit "data"))
      if non_date_cols ≠ [] ∧ non_date_cols.all (fun c => detail_cols.contains c) then
        lit "none"
      else if columns.length = 1 ∧ cols_lower.any (fun c => detail_cols.contains c) then
        lit "none"
      else
        let has_time := columns.any (fun c => time_cols.contains (toLowerStr c))
        let has_numeric := columns.any (fun c => numeric_cols.contains (toLowerStr c))
        if ¬ has_numeric ∧ 2 ≤ columns.length ∧
            ¬ isNumericValue (rowGet (results.headD []) ((columns.get? 1).getD [])) then
          if results.length ≤ 15 then lit "table" else lit "none"
        else if has_time ∧ 2 < results.length then lit "bar_chart"
        else if results.length ≤ 8 ∧ columns.length = 2 then
          if results.length ≤ 6 then lit "pie_chart" else lit "bar_chart"
        else if results.length ≤ 15 then lit "bar_chart"
        else lit "bar_chart"

/-! ## SQL generation: cleanup and auto-correction (sql_agent.py lines 193-296) -/

/-- `re.sub(r'^```sql\s*', '', sql)`: one anchored leading occurrence. -/
def dropFenceSql (s : Str) : Str :=
  if startsWith s (bq :: bq :: bq :: lit "sql") then (s.drop 6).dropWhile isPySpace else s

/-- `re.sub(r'^```\s*', '', sql)` -/
def dropFencePlain (s : Str) : Str :=
  if startsWith s [bq, bq, bq] then (s.drop 3).dropWhile isPySpace else s

/-- `re.sub(r'\s*```$', '', sql)`: a trailing fence, either at the very end
    or just before a final newline (Python's `$`). -/
def dropFenceEnd (s : Str) : Str :=
  let r := s.reverse
  if startsWith r [bq, bq, bq] then ((r.drop 3).dropWhile isPySpace).reverse
  else if startsWith r ('\n' :: [bq, bq, bq]) then
    ('\n' :: (r.drop 4).dropWhile isPySpace).reverse
  else s

/-- Lines 220-226: strip, remove markdown code fences, strip again. -/
def clean_sql_text (raw : Str) : Str :=
  pyStrip (dropFenceEnd (dropFencePlain (dropFenceSql (pyStrip raw))))

/-- `sql.upper().startswith(('SELECT', 'WITH'))` -/
def startsSelectOrWith (s : Str) : Bool :=
  startsWith (toUpperStr s) (lit "SELECT") || startsWith (toUpperStr s) (lit "WITH")

/-- `VALID_COLUMNS` (lines 199-207).  The Python value is a `set`; its
    iteration order for the prefix search is unspecified, so the source
    literal's order is used here. -/
def VALID_COLUMNS : List Str :=
  [lit "nr_reclamatie", lit "raion", lit "pm", lit "observatii", lit "nume_client",
   lit "nr_comanda", lit "id_comanda", lit "grup_vanzare", lit "furnizor",
   lit "echipa_livrare", lit "data_factura", lit "data_comanda", lit "data_reclamatie",
   lit "magazin", lit "articol_cod", lit "id_client", lit "articol_denumire",
   lit "modalitate_rezolvare", lit "motiv_reclamatie", lit "descriere",
   lit "mod_livrare", lit "furnizor_ext", lit "responsabil_comanda",
   lit "cantitate", lit "valoare"]

/-- `name_map` (lines 242-255). -/
def name_map : List (Str × Str) :=
  [(lit "grupa_mediu_vanzare", lit "grup_vanzare"),
   (lit "grupa_mediu", lit "grup_vanzare"),
   (lit "mediu_vanzare", lit "grup_vanzare"),
   (lit "grup_mediu", lit "grup_vanzare"),
   (lit "data_reclam", lit "data_reclamatie"),
   (lit "data_rec", lit "data_reclamatie"),
   (lit "nr_reclam", lit "nr_reclamatie"),
   (lit "motiv_reclam", lit "motiv_reclamatie"),
   (lit "articol_den", lit "articol_denumire"),
   (lit "mod_rezolvare", lit "modalitate_rezolvare"),
   (lit "responsabil", lit "responsabil_comanda"),
   (lit "echipa", lit "echipa_livrare")]

/-- `fix_column_name(word)` (lines 233-258). -/
def fix_column_name (word : Str) : Str :=
  let lw := toLowerStr word
  if VALID_COLUMNS.contains lw then word
  else
    match VALID_COLUMNS.find? (fun v => startsWith v lw && decide (4 ≤ word.length)) with
    | some v => v
    | none =>
      match name_map.find? (fun p => p.1 == lw) with
      | some p => p.2
      | none => word

/-- A regex word character (`\w`, ASCII part). -/
def isTokenChar (c : Char) : Bool := c.isAlphanum || c = '_'

/-- Whether a maximal word-character run matches
    `\b[a-z][a-z_]+[a-z]\b` (case-insensitive): only letters and
    underscores, length at least 3, letter at both ends. -/
def tokenMatches (t : Str) : Bool :=
  3 ≤ t.length && t.all (fun c => c.isAlpha || c = '_') &&
    (match t.head? with | some c => c.isAlpha | none => false) &&
    (match t.getLast? with | some c => c.isAlpha | none => false)

/-- `re.sub(r'\b[a-z][a-z_]+[a-z]\b', fix_column_name, sql, re.IGNORECASE)`
    (line 261), as a scan over maximal word-character runs. -/
def fixColsF : Nat → Str → Str
  | 0, s => s
  | _, [] => []
  | k + 1, c :: cs =>
    if isTokenChar c then
      let tok := (c :: cs).takeWhile isTokenChar
      let rest := (c :: cs).dropWhile isTokenChar
      (if tokenMatches tok then fix_column_name tok else tok) ++ fixColsF k rest
    else c :: fixColsF k cs

def fix_column_names (s : Str) : Str := fixColsF s.length s

/-- `[\w\(\)]` -/
def isWordParen (c : Char) : Bool := isTokenChar c || c = '(' || c = ')'

/-- Try the pattern `(ORDER\s+BY\s+[\w\(\)]+\s+)descriere(\s+LIMIT|\s*$)`
    (case-insensitive) at the head of `s`; on success return the text the
    replacement `\1DESC\2` emits and the rest of the string (line 265). -/
def matchDescAt (s : Str) : Option (Str × Str) :=
  if startsWith (toUpperStr s) (lit "ORDER") then
    let g1a := s.take 5
    let r1 := s.drop 5
    let w1 := r1.takeWhile isPySpace
    if w1 = [] then none
    else
      let r2 := r1.dropWhile isPySpace
      if startsWith (toUpperStr r2) (lit "BY") then
        let g1b := r2.take 2
        let r3 := r2.drop 2
        let w2 := r3.takeWhile isPySpace
        if w2 = [] then none
        else
          let r4 := r3.dropWhile isPySpace
          let tok := r4.takeWhile isWordParen
          if tok = [] then none
          else
            let r5 := r4.dropWhile isWordParen
            let w3 := r5.takeWhile isPySpace
            if w3 = [] then none
            else
              let r6 := r5.dropWhile isPySpace
              if startsWith (toUpperStr r6) (lit "DESCRIERE") then
                let r7 := r6.drop 9
                let w4 := r7.takeWhile isPySpace
                let r8 := r7.dropWhile isPySpace
                if w4 ≠ [] ∧ startsWith (toUpperStr r8) (lit "LIMIT") then
                  some (g1a ++ w1 ++ g1b ++ w2 ++ tok ++ w3 ++ lit "DESC" ++ w4 ++ r8.take 5,
                        r8.drop 5)
                else if r7.all isPySpace then
                  some (g1a ++ w1 ++ g1b ++ w2 ++ tok ++ w3 ++ lit "DESC" ++ r7, [])
                else none
              else none
      else none
  else none

/-- All non-overlapping replacements of the DESC-keyword repair. -/
def fixDescF : Nat → Str → Str
  | 0, s => s
  | _, [] => []
  | k + 1, c :: cs =>
    match matchDescAt (c :: cs) with
    | some (emit, rest) => emit ++ fixDescF k rest
    | none => c :: fixDescF k cs

def fix_desc_keyword (s : Str) : Str := fixDescF s.length s

/-- Lines 267-278: if no FROM clause is present and the query is a SELECT,
    inject `FROM complaints` before the first keyword found in the tried
    order WHERE, GROUP BY, ORDER BY, LIMIT, else append it. -/
def inject_from (sql : Str) : Str :=
  let up := toUpperStr sql
  if ¬ containsSub (lit "FROM") up ∧ startsWith up (lit "SELECT") then
    match indexOfSub (lit "WHERE") up with
    | some i => insertAt sql i (lit "FROM complaints ")
    | none =>
      match indexOfSub (lit "GROUP BY") up with
      | some i => insertAt sql i (lit "FROM complaints ")
      | none =>
        match indexOfSub (lit "ORDER BY") up with
        | some i => insertAt sql i (lit "FROM complaints ")
        | none =>
          match indexOfSub (lit "LIMIT") up with
          | some i => insertAt sql i (lit "FROM complaints ")
          | none => rstripSemi sql ++ lit " FROM complaints"
  else sql

/-- Try `LIMIT\s+(\d+)` (case-insensitive) at the head of `s`; on success
    return the numeric group and the rest after the match. -/
def matchLimitAt (s : Str) : Option (Nat × Str) :=
  if startsWith (toUpperStr s) (lit "LIMIT") then
    let r1 := s.drop 5
    let ws := r1.takeWhile isPySpace
    if ws = [] then none
    else
      let r2 := r1.dropWhile isPySpace
      let ds := r2.takeWhile Char.isDigit
      if ds = [] then none
      else some (natOfDigits ds, r2.dropWhile Char.isDigit)
  else none

/-- `re.search(r'LIMIT\s+(\d+)', sql, re.IGNORECASE)`: the first match's
    numeric group. -/
def firstLimitVal : Str → Option Nat
  | [] => none
  | c :: cs =>
    match matchLimitAt (c :: cs) with
    | some (n, _) => some n
    | none => firstLimitVal cs

/-- `re.sub(r'LIMIT\s+\d+', 'LIMIT 150', sql, re.IGNORECASE)`: every
    non-overlapping match replaced. -/
def subAllLimitF : Nat → Str → Str
  | 0, s => s
  | _, [] => []
  | k + 1, c :: cs =>
    match matchLimitAt (c :: cs) with
    | some (_, rest) => lit "LIMIT 150" ++ subAllLimitF k rest
    | none => c :: subAllLimitF k cs

def subAllLimit (s : Str) : Str := subAllLimitF s.length s

/-- `has_aggregation` (line 281). -/
def hasAgg (s : Str) : Bool :=
  containsCI (lit "COUNT(") s || containsCI (lit "SUM(") s || containsCI (lit "AVG(") s ||
  containsCI (lit "MIN(") s || containsCI (lit "MAX(") s || containsCI (lit "GROUP BY") s

/-- `'LIMIT' in sql_upper` (line 283). -/
def hasLimitSub (s : Str) : Bool := containsCI (lit "LIMIT") s

/-- Lines 280-291: raise a first LIMIT below 150 to 150 (rewriting every
    LIMIT clause), and append `LIMIT 150` when no LIMIT is present and the
    query has no aggregation marker. -/
def enforce_limit (sql : Str) : Str :=
  let sql' :=
    match firstLimitVal sql with
    | some n => if n < 150 then subAllLimit sql else sql
    | none => sql
  if ¬ hasAgg sql ∧ ¬ hasLimitSub sql then rstripSemi sql' ++ lit " LIMIT 150" else sql'

/-- The deterministic validation/correction pipeline applied to the raw
    completion text (lines 220-293): cleanup, SELECT/WITH check, column-name
    repair, DESC-keyword repair, FROM injection, row-cap enforcement.
    `none` models the "Invalid SQL generated" rejection. -/
def correct_sql (raw : Str) : Option Str :=
  let sql0 := clean_sql_text raw
  if startsSelectOrWith sql0 then
    some (enforce_limit (inject_from (fix_desc_keyword (fix_column_names sql0))))
  else none

/-- `generate_sql(question)` (lines 193-296), with the completion service's
    answer (or exception message) as input.  Returns the corrected SQL or an
    error message. -/
def generate_sql (llm : Except Str Str) : Except Str Str :=
  match llm with
  | .error e => .error (lit "Error generating SQL: " ++ e)
  | .ok txt =>
    let sql0 := clean_sql_text txt
    if startsSelectOrWith sql0 then
      .ok (enforce_limit (inject_from (fix_desc_keyword (fix_column_names sql0))))
    else .error (lit "Invalid SQL generated: " ++ sql0.take 100)

/-- `generate_chart_query` (lines 299-344): strip fences from the secondary
    completion; keep it only if it starts with SELECT/WITH; any exception
    yields `None`. -/
def generate_chart_query (llm : Except Str Str) : Option Str :=
  match llm with
  | .error _ => none
  | .ok txt =>
    let agg := clean_sql_text txt
    if startsSelectOrWith agg then some agg else none

/-! ## `_extract_count_query` (sql_agent.py lines 669-689) -/

/-- Scan for the first position where `FROM` (case-insensitive) follows a
    whitespace character; `prev` is the character before the scan head. -/
def selFromScan : Char → Str → Option Nat
  | _, [] => none
  | prev, c :: cs =>
    if isPySpace prev ∧ startsWith (toUpperStr (c :: cs)) (lit "FROM") then some 0
    else (selFromScan c cs).map (· + 1)

/-- Try `SELECT\s+.*?\s+FROM` (case-insensitive, DOTALL) at the head;
    on success return the total match length (lazy middle: the earliest
    whitespace-preceded FROM at offset at least two past SELECT). -/
def matchSelFromAt (s : Str) : Option Nat :=
  if startsWith (toUpperStr s) (lit "SELECT") then
    match s.drop 6 with
    | [] => none
    | r0 :: rs =>
      if isPySpace r0 then
        match rs with
        | [] => none
        | r1 :: rs' =>
          match selFromScan r1 rs' with
          | some j => some (6 + 2 + j + 4)
          | none => none
      else none
  else none

/-- `re.sub(r'SELECT\s+.*?\s+FROM', 'SELECT COUNT(*) as total FROM', sql,
    count=1, re.IGNORECASE | re.DOTALL)` -/
def replaceSelFrom : Str → Str
  | [] => []
  | c :: cs =>
    match matchSelFromAt (c :: cs) with
    | some len => lit "SELECT COUNT(*) as total FROM" ++ (c :: cs).drop len
    | none => c :: replaceSelFrom cs

/-- `.*$` (no DOTALL): the dot cannot cross a newline and `$` matches at the
    end or just before a final newline, so the match can consume `X` exactly
    when `X` has no newline other than a final one; returns what remains. -/
def obTail (X : Str) : Option Str :=
  if ¬ X.contains '\n' then some []
  else if X.getLast? = some '\n' ∧ ¬ X.dropLast.contains '\n' then some ['\n']
  else none

/-- Try `\s+ORDER\s+BY\s+.*$` (case-insensitive) at the head; on success
    return the remainder the substitution leaves. -/
def matchOBAt (u : Str) : Option Str :=
  if (u.takeWhile isPySpace) = [] then none
  else
    let u1 := u.dropWhile isPySpace
    if startsWith (toUpperStr u1) (lit "ORDER") then
      let u2 := u1.drop 5
      if (u2.takeWhile isPySpace) = [] then none
      else
        let u3 := u2.dropWhile isPySpace
        if startsWith (toUpperStr u3) (lit "BY") then
          let u4 := u3.drop 2
          if (u4.takeWhile isPySpace) = [] then none
          else obTail (u4.dropWhile isPySpace)
        else none
    else none

/-- `re.sub(r'\s+ORDER\s+BY\s+.*$', '', count_sql, re.IGNORECASE)`.  The
    match runs to the end of the string, so at most one substitution fires
    and the tiny remainder cannot match again. -/
def orderByStrip : Str → Str
  | [] => []
  | c :: cs =>
    match matchOBAt (c :: cs) with
    | some rem => rem
    | none => c :: orderByStrip cs

/-- Try `\s+LIMIT\s+\d+` (case-insensitive) at the head; on success return
    the rest after the match. -/
def matchWsLimitAt (u : Str) : Option Str :=
  if (u.takeWhile isPySpace) = [] then none
  else
    let u1 := u.dropWhile isPySpace
    if startsWith (toUpperStr u1) (lit "LIMIT") then
      let u2 := u1.drop 5
      if (u2.takeWhile isPySpace) = [] then none
      else
        let u3 := u2.dropWhile isPySpace
        if (u3.takeWhile Char.isDigit) = [] then none
        else some (u3.dropWhile Char.isDigit)
    else none

/-- `re.sub(r'\s+LIMIT\s+\d+', '', count_sql, re.IGNORECASE)` -/
def limitStripF : Nat → Str → Str
  | 0, s => s
  | _, [] => []
  | k + 1, c :: cs =>
    match matchWsLimitAt (c :: cs) with
    | some rest => limitStripF k rest
    | none => c :: limitStripF k cs

def limitStrip (s : Str) : Str := limitStripF s.length s

/-- The lookahead `(?=\s+HAVING|\s+ORDER|\s+LIMIT|$)`. -/
def groupLookOk (u : Str) : Bool :=
  (!(u.takeWhile isPySpace).isEmpty &&
    (startsWith (toUpperStr (u.dropWhile isPySpace)) (lit "HAVING") ||
     startsWith (toUpperStr (u.dropWhile isPySpace)) (lit "ORDER") ||
     startsWith (toUpperStr (u.dropWhile isPySpace)) (lit "LIMIT"))) ||
  u.isEmpty || u == ['\n']

/-- Lazy `.*?` search: the shortest newline-free prefix whose end satisfies
    the lookahead; returns its length. -/
def gbTryT : Str → Option Nat
  | [] => if groupLookOk [] then some 0 else none
  | c :: X' =>
    if groupLookOk (c :: X') then some 0
    else if c = '\n' then none
    else (gbTryT X').map (· + 1)

/-- Backtracking for the greedy `\s+` before the lazy part: try the longest
    whitespace run first, then shorter ones. -/
def gbTryW : Nat → Str → Option (Nat × Nat)
  | 0, _ => none
  | w + 1, u4 =>
    match gbTryT (u4.drop (w + 1)) with
    | some t => some (w + 1, t)
    | none => gbTryW w u4

/-- Try `\s+GROUP\s+BY\s+.*?(?=\s+HAVING|\s+ORDER|\s+LIMIT|$)`
    (case-insensitive) at the head; on success return the rest (the
    lookahead text is kept). -/
def matchGBAt (u : Str) : Option Str :=
  if (u.takeWhile isPySpace) = [] then none
  else
    let u1 := u.dropWhile isPySpace
    if startsWith (toUpperStr u1) (lit "GROUP") then
      let u2 := u1.drop 5
      if (u2.takeWhile isPySpace) = [] then none
      else
        let u3 := u2.dropWhile isPySpace
        if startsWith (toUpperStr u3) (lit "BY") then
          let u4 := u3.drop 2
          match gbTryW (u4.takeWhile isPySpace).length u4 with
          | some (w, t) => some ((u4.drop w).drop t)
          | none => none
        else none
    else none

/-- `re.sub(r'\s+GROUP\s+BY\s+.*?(?=\s+HAVING|\s+ORDER|\s+LIMIT|$)', '',
    count_sql, re.IGNORECASE)` -/
def groupByStripF : Nat → Str → Str
  | 0, s => s
  | _, [] => []
  | k + 1, c :: cs =>
    match matchGBAt (c :: cs) with
    | some rest => groupByStripF k rest
    | none => c :: groupByStripF k cs

def groupByStrip (s : Str) : Str := groupByStripF s.length s

/-- `_extract_count_query(sql)` (lines 669-689): rewrite the projection to
    `COUNT(*)`, strip ORDER BY, LIMIT and GROUP BY, and keep the result only
    if it still starts with SELECT.  (The `except` branch is unreachable for
    these regexes.) -/
def extract_count_query (sql : Str) : Option Str :=
  let c1 := replaceSelFrom sql
  let c2 := orderByStrip c1
  let c3 := limitStrip c2
  let c4 := groupByStrip c3
  if startsWith (toUpperStr c4) (lit "SELECT") then some c4 else none

/-! ## `format_response` (sql_agent.py lines 347-544)

The completion service's reply (or its exception message) and the JSON
library are inputs.  The prompt assembled on lines 354-413 only feeds the
completion service, so it does not appear in the model. -/

/-- The `"text"` value of a parsed JSON object: absent, a string, or a
    non-string JSON value (which faults at `.replace`). -/
inductive TextField where
  | absent
  | str (s : Str)
  | nonStr
deriving DecidableEq

/-- The `"visualization"` value: absent, a string, or a non-string value
    (which compares unequal to every string and never faults). -/
inductive VizField where
  | absent
  | vstr (s : Str)
  | nonStr
deriving DecidableEq

/-- The fields of a parsed JSON object that the formatter reads.  The
    model-supplied `"data"`/`"columns"` values are abstracted as row/column
    lists; `extra` records whether further keys make an otherwise empty
    object truthy. -/
structure ParsedResp where
  text : TextField := .absent
  visualization : VizField := .absent
  data : Option (List Row) := none
  columns : Option (List Str) := none
  extra : Bool := false
deriving DecidableEq

/-- Outcome of `json.loads`: a decode error, a non-object value (with its
    truthiness), or an object. -/
inductive JloadsResult where
  | fail
  | nonDict (truthyFlag : Bool)
  | dict (p : ParsedResp)

/-- `re.sub(r'^```json\s*', '', t, flags=re.MULTILINE)` and its plain-fence
    variant: remove the fence at the start of any line, left to right. -/
def stripMLFenceF (pat : Str) : Nat → Bool → Str → Str
  | 0, _, s => s
  | _, _, [] => []
  | k + 1, atStart, c :: cs =>
    if atStart && startsWith (c :: cs) pat then
      let afterPat := (c :: cs).drop pat.length
      let ws := afterPat.takeWhile isPySpace
      let rest := afterPat.dropWhile isPySpace
      stripMLFenceF pat k (ws.getLast? == some '\n') rest
    else c :: stripMLFenceF pat k (c == '\n') cs

/-- Lines 426-432: strip, remove markdown fences (multi-line for the leading
    ones, end-anchored for the trailing one), strip again. -/
def clean_response_text (raw : Str) : Str :=
  let t0 := pyStrip raw
  let t1 := stripMLFenceF (bq :: bq :: bq :: lit "json") t0.length true t0
  let t2 := stripMLFenceF [bq, bq, bq] t1.length true t1
  pyStrip (dropFenceEnd t2)

/-- `"text"` as characters. -/
def textPat : Str := qu :: lit "text" ++ [qu]

/-- `"visualization"` as characters. -/
def vizPat : Str := qu :: lit "visualization" ++ [qu]

/-- Continuation of the layer-2 pattern after the brace-free prefix:
    `"text"\s*:\s*"[^"]*"[^{}]*\}`; returns the consumed length. -/
def j2Cont (u : Str) : Option Nat :=
  if startsWith u textPat then
    let u1 := u.drop 6
    let w1 := u1.takeWhile isPySpace
    match u1.dropWhile isPySpace with
    | ':' :: u3 =>
      let w2 := u3.takeWhile isPySpace
      match u3.dropWhile isPySpace with
      | q :: u5 =>
        if q = qu then
          let b := u5.takeWhile (fun c => c != qu)
          match u5.dropWhile (fun c => c != qu) with
          | _ :: u7 =>
            let cpart := u7.takeWhile (fun c => c != lbr && c != rbr)
            match u7.dropWhile (fun c => c != lbr && c != rbr) with
            | b2 :: _ =>
              if b2 = rbr then
                some (6 + w1.length + 1 + w2.length + 1 + b.length + 1 + cpart.length + 1)
              else none
            | [] => none
          | [] => none
        else none
      | [] => none
    | _ => none
  else none

/-- Greedy `[^{}]*` before `"text"`: try the longest brace-free split first,
    backtracking to shorter ones. -/
def j2TryA : Nat → Str → Option Nat
  | 0, t => (j2Cont t).map (fun clen => 1 + clen)
  | j + 1, t =>
    match j2Cont (t.drop (j + 1)) with
    | some clen => some (1 + (j + 1) + clen)
    | none => j2TryA j t

/-- Try `\{[^{}]*"text"\s*:\s*"[^"]*"[^{}]*\}` at the head; on success
    return the match length. -/
def matchJ2At (s : Str) : Option Nat :=
  match s with
  | [] => none
  | c :: t =>
    if c = lbr then j2TryA (t.takeWhile (fun ch => ch != lbr && ch != rbr)).length t
    else none

/-- `re.search(r'\{[^{}]*"text"\s*:\s*"[^"]*"[^{}]*\}', t, re.DOTALL)`:
    the first matching substring (line 441). -/
def findJson2 : Str → Option Str
  | [] => none
  | c :: cs =>
    match matchJ2At (c :: cs) with
    | some len => some ((c :: cs).take len)
    | none => findJson2 cs

/-- Try `"text"\s*:\s*"([^"]*)"` at the head; on success return the group. -/
def matchTextAt (u : Str) : Option Str :=
  if startsWith u textPat then
    match (u.drop 6).dropWhile isPySpace with
    | ':' :: u2 =>
      match u2.dropWhile isPySpace with
      | q :: u4 =>
        if q = qu then
          if (u4.dropWhile (fun c => c != qu)) = [] then none
          else some (u4.takeWhile (fun c => c != qu))
        else none
      | [] => none
    | _ => none
  else none

/-- `re.search(r'"text"\s*:\s*"([^"]*)"', t)` (line 450). -/
def textExtract : Str → Option Str
  | [] => none
  | c :: cs =>
    match matchTextAt (c :: cs) with
    | some g => some g
    | none => textExtract cs

/-- `re.sub(r'^\s*\{\s*"text"\s*:\s*"?', '', t)` (line 458): anchored, so at
    most one leading occurrence. -/
def cleanTextA (s : Str) : Str :=
  let u0 := s.dropWhile isPySpace
  match u0 with
  | [] => s
  | c :: u1 =>
    if c = lbr then
      let u2 := u1.dropWhile isPySpace
      if startsWith u2 textPat then
        match (u2.drop 6).dropWhile isPySpace with
        | ':' :: u4 =>
          let u5 := u4.dropWhile isPySpace
          match u5 with
          | q :: u6 => if q = qu then u6 else u5
          | [] => u5
        | _ => s
      else s
    else s

/-- `\s*,?\s*"visualization"` at this position (both comma choices). -/
def vizFromHere (u : Str) : Bool :=
  let u1 := u.dropWhile isPySpace
  startsWith u1 vizPat ||
    (match u1 with
     | ',' :: r => startsWith (r.dropWhile isPySpace) vizPat
     | _ => false)

/-- `"?\s*,?\s*"visualization"` at this position. -/
def matchVizAt (u : Str) : Bool :=
  vizFromHere u ||
    (match u with
     | c :: r => c = qu && vizFromHere r
     | [] => false)

/-- `re.sub(r'"?\s*,?\s*"visualization".*$', '', t, re.DOTALL)` (line 459):
    truncate at the first match. -/
def cleanTextB : Str → Str
  | [] => []
  | c :: cs => if matchVizAt (c :: cs) then [] else c :: cleanTextB cs

/-- `s.strip('"')` -/
def stripQuotes (s : Str) : Str :=
  ((s.dropWhile (fun c => c == qu)).reverse.dropWhile (fun c => c == qu)).reverse

/-- `t.replace('\\"', '"')` (line 474). -/
def replaceEscQuote : Str → Str
  | [] => []
  | [c] => [c]
  | c1 :: c2 :: rest =>
    if c1 = '\\' ∧ c2 = qu then qu :: replaceEscQuote rest
    else c1 :: replaceEscQuote (c2 :: rest)

/-- The layered parse of lines 434-470: direct `json.loads`, embedded JSON
    object, raw text-field extraction, then the cleanup fallback.  A falsy
    layer-2 outcome (per Python truthiness) falls through to layer 3. -/
def parse_layers (results : List Row) (columns : List Str)
    (jloads : Str → JloadsResult) (cleaned : Str) : JloadsResult :=
  match jloads cleaned with
  | .dict p => .dict p
  | .nonDict b => .nonDict b
  | .fail =>
    let l2 : JloadsResult :=
      match findJson2 cleaned with
      | some sub => jloads sub
      | none => .fail
    let l2truthy : Bool :=
      match l2 with
      | .dict p =>
        decide (p.text ≠ .absent) || decide (p.visualization ≠ .absent) ||
        decide (p.data ≠ none) || decide (p.columns ≠ none) || p.extra
      | .nonDict b => b
      | .fail => false
    if l2truthy then l2
    else
      match textExtract cleaned with
      | some t =>
        .dict { text := .str t, visualization := .vstr (guess_visualization results columns) }
      | none =>
        let clean_text := pyStrip (stripQuotes (pyStrip (cleanTextB (cleanTextA cleaned))))
        if clean_text ≠ [] then
          .dict { text := .str clean_text,
                  visualization := .vstr (guess_visualization results columns) }
        else
          .dict { text := .str (lit "Am găsit " ++ Nat.toDigits 10 results.length ++
                    lit " rezultate."),
                  visualization := .vstr (guess_visualization results columns) }

/-- The detail-column set of `format_response` (lines 481-482; the source
    repeats the set). -/
def detail_cols_fmt : List Str :=
  [lit "nr_reclamatie", lit "observatii", lit "observatie", lit "detalii",
   lit "descriere", lit "adresa", lit "telefon", lit "email", lit "client",
   lit "nume_client", lit "id", lit "nr", lit "numar", lit "cod"]

/-- `is_detail` (line 484): the lowered column set meets the detail set. -/
def isDetailCols (columns : List Str) : Bool :=
  columns.any (fun c => detail_cols_fmt.contains (toLowerStr c))

/-- One bullet line of the rebuilt list (lines 504-517).  An empty row dict
    raises IndexError at `list(r.values())[0]`. -/
def mkLine (obs_key mag_key : Option Str) (r : Row) : Except Str Str :=
  match r with
  | [] => .error (lit "IndexError: list index out of range")
  | (_, v) :: _ =>
    let line0 := lit "• " ++ pyStr v
    let line1 :=
      match mag_key with
      | some mk =>
        match rowGet r mk with
        | some mv =>
          if truthy mv then line0 ++ lit " (" ++ pyStr mv ++ lit ")" else line0
        | none => line0
      | none => line0
    match obs_key with
    | some ok2 =>
      match rowGet r ok2 with
      | some ov =>
        if truthy ov then
          let obs0 := pyStrip ((pyStr ov).map (fun c => if c = '\n' then ' ' else c))
          let obs1 := if 150 < obs0.length then obs0.take 147 ++ lit "..." else obs0
          let obs2 := if obs1 = [] then lit "(detalii incomplete)" else obs1
          .ok (line1 ++ lit " - " ++ obs2)
        else .ok line1
      | none => .ok line1
    | none => .ok line1

/-- All bullet lines, in row order. -/
def mkLines (obs_key mag_key : Option Str) : List Row → Except Str (List Str)
  | [] => .ok []
  | r :: rs => do
    let l ← mkLine obs_key mag_key r
    let ls ← mkLines obs_key mag_key rs
    .ok (l :: ls)

/-- An envelope dict; `none`/`absent` model a missing key. -/
structure Envelope where
  text : TextField := .absent
  visualization : VizField := .absent
  data : Option (List Row) := none
  columns : Option (List Str) := none
  sql : Option Str := none
  row_count : Option Nat := none
  error : Bool := false
deriving DecidableEq

/-- Lines 472-533: escape cleanup on the text, the table-size override, the
    detail force to "none", the identifier-list completeness pass with its
    unconditional data/columns clearing, and the data/columns defaults.
    Errors model the Python exceptions the `except` on line 536 catches
    (a non-dict parse faults at the first attribute access; a missing text
    key faults at the `+=`; an empty row dict faults in the list builder).
    The next three definitions factor pieces of this block.

    `values = [str(list(r.values())[0]) for r in results if r]` (line 493). -/
def primaryValues (results : List Row) : List Str :=
  results.filterMap (fun r =>
    match r with
    | [] => none
    | (_, v) :: _ => some (pyStr v))

/-- `missing = [v for v in values if v not in text]` (line 494). -/
def missingValues (results : List Row) (text : Str) : List Str :=
  (primaryValues results).filter (fun v => ¬ containsSub v text)

/-- Lines 498-521: the deterministically rebuilt text with the appended
    bullet list. -/
def rebuilt_text (results : List Row) (t : Str) : Except Str Str :=
  let keys := rowKeys (results.headD [])
  let obs_key := keys.find? (fun k => containsSub (lit "observ") (toLowerStr k))
  let mag_key := keys.find? (fun k => containsSub (lit "magazin") (toLowerStr k))
  match mkLines obs_key mag_key results with
  | .error e => .error e
  | .ok lines =>
    .ok (t ++ lit "\n\n**Lista detaliată (" ++ Nat.toDigits 10 results.length ++
      lit " înregistrări):**\n" ++ List.intercalate (lit "\n") lines)

def finalize (results : List Row) (columns : List Str) (pr : JloadsResult) :
    Except Str Envelope :=
  match pr with
  | .fail => .error (lit "unreachable")
  | .nonDict _ => .error (lit "AttributeError")
  | .dict p0 =>
    match (match p0.text with
           | .absent => Except.ok TextField.absent
           | .str t => Except.ok (TextField.str (replaceEscQuote t))
           | .nonStr => Except.error (lit "AttributeError")) with
    | .error e => .error e
    | .ok textF =>
      let viz0 :=
        if p0.visualization = .vstr (lit "table") ∧ 15 < results.length then
          VizField.vstr (guess_visualization results columns)
        else p0.visualization
      let is_detail := isDetailCols columns
      let viz1 :=
        if is_detail ∧ viz0 ≠ .vstr (lit "none") ∧ viz0 ≠ .vstr (lit "table") then
          VizField.vstr (lit "none")
        else viz0
      if is_detail ∧ viz1 = .vstr (lit "none") ∧ results.length ≤ 60 then
        let textNow := match textF with | .str t => t | _ => []
        if missingValues results textNow ≠ [] then
          match textF with
          | .str t =>
            match rebuilt_text results t with
            | .error e => .error e
            | .ok t2 =>
              .ok { text := .str t2, visualization := viz1,
                    data := some [], columns := some [] }
          | _ => .error (lit "KeyError")
        else
          .ok { text := textF, visualization := viz1,
                data := some [], columns := some [] }
      else
        .ok { text := textF, visualization := viz1,
              data := some (p0.data.getD results),
              columns := some (p0.columns.getD columns) }

/-- `format_response(question, sql, results, columns, total_count)`
    (lines 347-544).  `question` and `total_count` only shape the prompt,
    which feeds the completion oracle `resp`; the catch-all on lines 536-544
    builds the envelope directly from the raw results.

    `format_core` is the body of the formatter's `try` block (everything
    that can fault); `format_response` wraps it in the catch-all. -/
def format_core (results : List Row) (columns : List Str) (resp : Except Str Str)
    (jloads : Str → JloadsResult) : Except Str Envelope :=
  match resp with
  | .error e => Except.error e
  | .ok rtxt =>
    finalize results columns
      (parse_layers results columns jloads (clean_response_text rtxt))

def format_response (_question : Str) (sql : Str) (results : List Row)
    (columns : List Str) (_total_count : Option Int) (resp : Except Str Str)
    (jloads : Str → JloadsResult) : Envelope :=
  match format_core results columns resp jloads with
  | .ok env => { env with sql := some sql, row_count := some results.length }
  | .error e =>
    { text := .str (lit "Eroare la formatarea răspunsului: " ++ e),
      visualization := .vstr (lit "none"),
      data := some results, columns := some columns,
      sql := some sql, row_count := some results.length }

/-! ## `chat` (sql_agent.py lines 607-666) -/

/-- Lines 645-652: the count-only rewrite of the primary SQL, executed to
    obtain the true total; on any miss the capped row count stands in.  A
    one-row count result whose row dict is empty raises IndexError (line
    650), which `chat` does not catch. -/
def true_total (store : Str → Except Str StoreResult) (sql : Str)
    (fallback : Nat) : Except Str Int :=
  match extract_count_query sql with
  | some count_sql =>
    match (execute_query store count_sql).1 with
    | [cr0] =>
      match cr0 with
      | [] => .error (lit "IndexError: list index out of range")
      | (_, v) :: _ =>
        match v with
        | .vint i => .ok i
        | _ => .ok (fallback : Int)
    | _ => .ok (fallback : Int)
  | none => .ok (fallback : Int)

/-- `chat(question)`, with the three completion calls and the store as
    inputs.  The uncaught IndexError on line 650 (a one-row count result
    whose row dict is empty) escapes `chat`, hence the `Except`. -/
def chat (question : Str) (llmSql llmChart llmFmt : Except Str Str)
    (jloads : Str → JloadsResult) (store : Str → Except Str StoreResult) :
    Except Str Envelope :=
  match generate_sql llmSql with
  | .error err =>
    .ok { text := .str (lit "Nu am putut genera interogarea SQL: " ++ err),
          visualization := .vstr (lit "none"), error := true }
  | .ok sql =>
    let exec := execute_query store sql
    match exec.2.2 with
    | some e =>
      .ok { text := .str (lit "Eroare la executarea interogării: " ++ e),
            visualization := .vstr (lit "none"), sql := some sql, error := true }
    | none =>
      let results := exec.1
      let columns := exec.2.1
      if results = [] then
        .ok { text := .str (lit "Nu am găsit rezultate pentru această interogare."),
              visualization := .vstr (lit "none"), sql := some sql,
              data := some [], columns := some columns, row_count := some 0 }
      else if 150 ≤ results.length then
        match true_total store sql results.length with
        | .error e => .error e
        | .ok total =>
        match generate_chart_query llmChart with
        | some agg_sql =>
          let aggExec := execute_query store agg_sql
          if aggExec.2.2 = none ∧ aggExec.1 ≠ [] then
            Except.ok (format_response question agg_sql aggExec.1 aggExec.2.1
              (some total) llmFmt jloads)
          else
            Except.ok (format_response question sql results columns (some total)
              llmFmt jloads)
        | none =>
          Except.ok (format_response question sql results columns (some total)
            llmFmt jloads)
      else
        Except.ok (format_response question sql results columns
          (some (results.length : Int)) llmFmt jloads)

/-- Companion of `chat` that counts how many times the aggregation fallback
    (the `generate_chart_query` completion, line 655) is attempted; it
    mirrors `chat`'s control flow exactly. -/
def chatChartAttempts (llmSql : Except Str Str)
    (store : Str → Except Str StoreResult) : Nat :=
  match generate_sql llmSql with
  | .error _ => 0
  | .ok sql =>
    let exec := execute_query store sql
    match exec.2.2 with
    | some _ => 0
    | none =>
      let results := exec.1
      if results = [] then 0
      else if 150 ≤ results.length then
        match true_total store sql results.length with
        | .error _ => 0
        | .ok _ => 1
      else 0

/-! ## Theorems -/

set_option maxRecDepth 40000

/-- C9: the Query Executor is total from the caller's perspective: for every
    SQL string it either returns the store's rows (as dicts) and column
    names with no error, or, on store-level failure, an empty row list, no
    columns and the store's fault message; it never raises to its caller. -/
theorem execute_query_total (store : Str → Except Str StoreResult) (sql : Str) :
    (∀ res, store sql = .ok res →
      execute_query store sql =
        (res.rows.map (fun row => dictOfZip res.cols row), res.cols, none)) ∧
    (∀ e, store sql = .error e → execute_query store sql = ([], [], some e)) := by
  constructor
  · intro res h; simp [execute_query, h]
  · intro e h; simp [execute_query, h]

/-- Witness for C9 at a concrete store and query. -/
theorem execute_query_total_witness :
    execute_query (fun _ => Except.ok ⟨[[Value.vint 1]], [lit "total"]⟩) (lit "SELECT 1")
      = ([[(lit "total", Value.vint 1)]], [lit "total"], none) ∧
    execute_query (fun _ => Except.error (lit "Catalog Error")) (lit "SELECT 1")
      = ([], [], some (lit "Catalog Error")) := by
  refine ⟨?_, (execute_query_total (fun _ => Except.error (lit "Catalog Error")) (lit "SELECT 1")).2 _ rfl⟩
  have h := (execute_query_total (fun _ => Except.ok ⟨[[Value.vint 1]], [lit "total"]⟩) (lit "SELECT 1")).1 _ rfl
  simpa using h

/-- C2 counterexample: a result with a temporal column (`luna`) and three
    rows whose second column is non-numeric is classified `table`, not
    `bar_chart` — the no-numeric degradation check precedes the temporal
    rule, contrary to the claim's stated order. -/
theorem guess_visualization_order_counterexample :
    (guess_visualization
      [[(lit "luna", Value.vstr (lit "Ianuarie")), (lit "magazin", Value.vstr (lit "Brasov"))],
       [(lit "luna", Value.vstr (lit "Februarie")), (lit "magazin", Value.vstr (lit "Cluj"))],
       [(lit "luna", Value.vstr (lit "Martie")), (lit "magazin", Value.vstr (lit "Iasi"))]]
      [lit "luna", lit "magazin"] = lit "table") ∧
    ([lit "luna", lit "magazin"].any (fun c => time_cols.contains (toLowerStr c)) = true) ∧
    ¬ (guess_visualization
      [[(lit "luna", Value.vstr (lit "Ianuarie")), (lit "magazin", Value.vstr (lit "Brasov"))],
       [(lit "luna", Value.vstr (lit "Februarie")), (lit "magazin", Value.vstr (lit "Cluj"))],
       [(lit "luna", Value.vstr (lit "Martie")), (lit "magazin", Value.vstr (lit "Iasi"))]]
      [lit "luna", lit "magazin"] = lit "bar_chart") := by decide

/-- The classifier's empty/scalar checks and identifier/free-text
    exclusions, as stated by the spec, bundled. -/
def VizExcluded (results : List Row) (columns : List Str) : Prop :=
  results.length = 0 ∨
  (results.length = 1 ∧ columns.length ≤ 2) ∨
  ((columns.map toLowerStr).contains (lit "observatii") = true ∨
   (columns.map toLowerStr).contains (lit "observatie") = true) ∨
  ((columns.map toLowerStr).all (fun c =>
    (detail_cols ++ [lit "data_reclamatie", lit "data", lit "magazin"]).contains c) = true) ∨
  ((columns.map toLowerStr).filter (fun c =>
      !(c == lit "data_reclamatie" || c == lit "data")) ≠ [] ∧
   ((columns.map toLowerStr).filter (fun c =>
      !(c == lit "data_reclamatie" || c == lit "data"))).all
      (fun c => detail_cols.contains c) = true) ∨
  (columns.length = 1 ∧
   (columns.map toLowerStr).any (fun c => detail_cols.contains c) = true)

/-- The no-numeric-column degradation condition (lines 587-593). -/
def VizDegrades (results : List Row) (columns : List Str) : Prop :=
  ¬ (columns.any (fun c => numeric_cols.contains (toLowerStr c)) = true) ∧
  2 ≤ columns.length ∧
  ¬ (isNumericValue (rowGet (results.headD []) ((columns.get? 1).getD [])) = true)

/-- A column name matching a temporal dimension. -/
def VizHasTime (columns : List Str) : Prop :=
  columns.any (fun c => time_cols.contains (toLowerStr c)) = true

instance (results : List Row) (columns : List Str) :
    Decidable (VizExcluded results columns) := by
  unfold VizExcluded; exact inferInstance

instance (results : List Row) (columns : List Str) :
    Decidable (VizDegrades results columns) := by
  unfold VizDegrades; exact inferInstance

instance (columns : List Str) : Decidable (VizHasTime columns) := by
  unfold VizHasTime; exact inferInstance

set_option maxHeartbeats 2000000 in
/-- C2 (amended): the classifier applies the rules in this order: empty and
    single-row scalar results and the identifier/free-text exclusions map to
    `none`; then a result with no numeric-named column, at least two
    columns, and a non-numeric first value in the second column degrades to
    `table` (at most 15 rows) or `none`; only then a temporal column with
    more than 2 rows gives `bar_chart`; then exactly 2 columns with at most
    8 rows gives `pie_chart`/`bar_chart`; everything else gives
    `bar_chart`. -/
theorem guess_visualization_amended (results : List Row) (columns : List Str) :
    (VizExcluded results columns → guess_visualization results columns = lit "none") ∧
    (¬ VizExcluded results columns → VizDegrades results columns →
      guess_visualization results columns =
        (if results.length ≤ 15 then lit "table" else lit "none")) ∧
    (¬ VizExcluded results columns → ¬ VizDegrades results columns →
      VizHasTime columns → 2 < results.length →
      guess_visualization results columns = lit "bar_chart") ∧
    (¬ VizExcluded results columns → ¬ VizDegrades results columns →
      ¬ (VizHasTime columns ∧ 2 < results.length) →
      results.length ≤ 8 → columns.length = 2 →
      guess_visualization results columns =
        (if results.length ≤ 6 then lit "pie_chart" else lit "bar_chart")) ∧
    (¬ VizExcluded results columns → ¬ VizDegrades results columns →
      ¬ (VizHasTime columns ∧ 2 < results.length) →
      ¬ (results.length ≤ 8 ∧ columns.length = 2) →
      guess_visualization results columns = lit "bar_chart") := by
  refine ⟨?_, ?_, ?_, ?_, ?_⟩
  · intro hE
    simp only [VizExcluded] at hE
    simp only [guess_visualization]
    rcases hE with h | h | h | h | h | h <;> split_ifs <;> rfl
  · intro hE hD
    simp only [VizExcluded, not_or] at hE
    obtain ⟨h1, h2, h3, h4, h5, h6⟩ := hE
    simp only [VizDegrades] at hD
    simp only [guess_visualization]
    rw [if_neg h1, if_neg h2, if_neg (not_or.mpr h3), if_neg h4, if_neg h5,
      if_neg h6, if_pos hD]
  · intro hE hD hT hn
    simp only [VizExcluded, not_or] at hE
    obtain ⟨h1, h2, h3, h4, h5, h6⟩ := hE
    simp only [VizDegrades] at hD
    simp only [VizHasTime] at hT
    simp only [guess_visualization]
    rw [if_neg h1, if_neg h2, if_neg (not_or.mpr h3), if_neg h4, if_neg h5,
      if_neg h6, if_neg hD, if_pos ⟨hT, hn⟩]
  · intro hE hD hT h8 h2c
    simp only [VizExcluded, not_or] at hE
    obtain ⟨h1, h2, h3, h4, h5, h6⟩ := hE
    simp only [VizDegrades] at hD
    simp only [VizHasTime] at hT
    simp only [guess_visualization]
    rw [if_neg h1, if_neg h2, if_neg (not_or.mpr h3), if_neg h4, if_neg h5,
      if_neg h6, if_neg hD, if_neg hT, if_pos ⟨h8, h2c⟩]
  · intro hE hD hT h82
    simp only [VizExcluded, not_or] at hE
    obtain ⟨h1, h2, h3, h4, h5, h6⟩ := hE
    simp only [VizDegrades] at hD
    simp only [VizHasTime] at hT
    simp only [guess_visualization]
    rw [if_neg h1, if_neg h2, if_neg (not_or.mpr h3), if_neg h4, if_neg h5,
      if_neg h6, if_neg hD, if_neg hT, if_neg h82, ite_self]

/-- Witness for C2's amended theorem at the counterexample's shape. -/
theorem guess_visualization_amended_witness :
    ¬ VizExcluded
      [[(lit "luna", Value.vstr (lit "Ianuarie")), (lit "magazin", Value.vstr (lit "Brasov"))],
       [(lit "luna", Value.vstr (lit "Februarie")), (lit "magazin", Value.vstr (lit "Cluj"))],
       [(lit "luna", Value.vstr (lit "Martie")), (lit "magazin", Value.vstr (lit "Iasi"))]]
      [lit "luna", lit "magazin"] ∧
    guess_visualization
      [[(lit "luna", Value.vstr (lit "Ianuarie")), (lit "magazin", Value.vstr (lit "Brasov"))],
       [(lit "luna", Value.vstr (lit "Februarie")), (lit "magazin", Value.vstr (lit "Cluj"))],
       [(lit "luna", Value.vstr (lit "Martie")), (lit "magazin", Value.vstr (lit "Iasi"))]]
      [lit "luna", lit "magazin"] = lit "table" := by
  refine ⟨by decide, ?_⟩
  have h := (guess_visualization_amended
    [[(lit "luna", Value.vstr (lit "Ianuarie")), (lit "magazin", Value.vstr (lit "Brasov"))],
     [(lit "luna", Value.vstr (lit "Februarie")), (lit "magazin", Value.vstr (lit "Cluj"))],
     [(lit "luna", Value.vstr (lit "Martie")), (lit "magazin", Value.vstr (lit "Iasi"))]]
    [lit "luna", lit "magazin"]).2.1 (by decide) (by decide)
  simpa using h

/-- Helper: any successfully finalized envelope for a detail column set has
    visualization `none` or `table` (the force on lines 486-487 runs after
    the table-size override on line 477). -/
theorem finalize_detail_viz (results : List Row) (columns : List Str)
    (pr : JloadsResult) (env : Envelope) (hd : isDetailCols columns = true)
    (h : finalize results columns pr = .ok env) :
    env.visualization = .vstr (lit "none") ∨ env.visualization = .vstr (lit "table") := by
  cases pr with
  | fail => simp [finalize] at h
  | nonDict b => simp [finalize] at h
  | dict p0 =>
    cases htxt : p0.text with
    | nonStr => simp [finalize, htxt] at h
    | absent =>
      simp only [finalize, htxt] at h
      repeat' split at h
      all_goals try (exact Except.noConfusion h)
      all_goals try (injection h with h)
      all_goals (subst h; try simp; try simp_all; try tauto)
    | str t =>
      simp only [finalize, htxt] at h
      repeat' split at h
      all_goals try (exact Except.noConfusion h)
      all_goals try (injection h with h)
      all_goals (subst h; try simp; try simp_all; try tauto)

/-- C3 counterexample: the classifier itself does NOT map every result
    containing a detail column to `none`: `nr` is in the detail set, yet
    (`nr`, `valoare`) with 3 rows is classified `pie_chart`, because the
    exclusion rules only fire when the detail columns exhaust the
    non-temporal/non-location columns. -/
theorem classifier_detail_chart_counterexample :
    detail_cols.contains (toLowerStr (lit "nr")) = true ∧
    guess_visualization
      [[(lit "nr", Value.vint 1), (lit "valoare", Value.vint 10)],
       [(lit "nr", Value.vint 2), (lit "valoare", Value.vint 20)],
       [(lit "nr", Value.vint 3), (lit "valoare", Value.vint 30)]]
      [lit "nr", lit "valoare"] = lit "pie_chart" := by decide

/-- C3 (amended): for every formatted response whose column set meets the
    fixed detail-column set, the final visualization is never a chart kind:
    the Formatter forces the model's choice to `none` whenever it was
    anything other than `none`/`table`, and its catch-all path also yields
    `none`.  (The classifier alone can still return a chart for such
    results, per the counterexample.) -/
theorem format_response_detail_never_chart (question sql : Str) (results : List Row)
    (columns : List Str) (total_count : Option Int) (resp : Except Str Str)
    (jloads : Str → JloadsResult) (hd : isDetailCols columns = true) :
    (format_response question sql results columns total_count resp jloads).visualization
        = .vstr (lit "none") ∨
    (format_response question sql results columns total_count resp jloads).visualization
        = .vstr (lit "table") := by
  unfold format_response
  cases hc : format_core results columns resp jloads with
  | error e => simp
  | ok env =>
    simp only []
    have : env.visualization = .vstr (lit "none") ∨ env.visualization = .vstr (lit "table") := by
      cases resp with
      | error e => simp [format_core] at hc
      | ok rtxt =>
        exact finalize_detail_viz results columns _ env hd hc
    simpa using this

/-- Witness for C3's amended theorem: the model chose `pie_chart` for an
    identifier result and the formatter forces it away from chart kinds. -/
theorem format_response_detail_never_chart_witness :
    (format_response [] (lit "SELECT nr, valoare FROM complaints")
      [[(lit "nr", Value.vint 1), (lit "valoare", Value.vint 10)]]
      [lit "nr", lit "valoare"] none (.ok (lit "x"))
      (fun _ => .dict { text := .str (lit "x"),
                        visualization := .vstr (lit "pie_chart") })).visualization
        = .vstr (lit "none") ∨
    (format_response [] (lit "SELECT nr, valoare FROM complaints")
      [[(lit "nr", Value.vint 1), (lit "valoare", Value.vint 10)]]
      [lit "nr", lit "valoare"] none (.ok (lit "x"))
      (fun _ => .dict { text := .str (lit "x"),
                        visualization := .vstr (lit "pie_chart") })).visualization
        = .vstr (lit "table") :=
  format_response_detail_never_chart _ _ _ _ _ _ _ (by decide)

/-- C8: the Response Formatter is total: it always returns an envelope
    carrying the executed SQL and a row count equal to the number of input
    rows, and on any internal fault the envelope is built directly from the
    raw results with visualization `none` and no model-authored text (the
    text is the formatter's own error message). -/
theorem format_response_total (question sql : Str) (results : List Row)
    (columns : List Str) (total_count : Option Int) (resp : Except Str Str)
    (jloads : Str → JloadsResult) :
    (format_response question sql results columns total_count resp jloads).sql = some sql ∧
    (format_response question sql results columns total_count resp jloads).row_count
      = some results.length ∧
    (∀ e, format_core results columns resp jloads = .error e →
      format_response question sql results columns total_count resp jloads =
        { text := .str (lit "Eroare la formatarea răspunsului: " ++ e),
          visualization := .vstr (lit "none"),
          data := some results, columns := some columns,
          sql := some sql, row_count := some results.length }) := by
  unfold format_response
  cases hc : format_core results columns resp jloads with
  | error e =>
    refine ⟨rfl, rfl, fun e' he => ?_⟩
    injection he with he
    subst he
    rfl
  | ok env => exact ⟨rfl, rfl, fun e' he => by simp at he⟩

/-- Witness for C8 on the fault path (the completion call raised). -/
theorem format_response_total_witness :
    format_response [] (lit "SELECT 1") [] [] none (.error (lit "boom")) (fun _ => .fail) =
      { text := .str (lit "Eroare la formatarea răspunsului: " ++ lit "boom"),
        visualization := .vstr (lit "none"), data := some [], columns := some [],
        sql := some (lit "SELECT 1"), row_count := some 0 } :=
  (format_response_total [] (lit "SELECT 1") [] [] none
    (.error (lit "boom")) (fun _ => .fail)).2.2 _ rfl

/-- C10: when the column set meets the detail set, the final visualization
    is `none` and the row count is at most 60, the formatter clears the
    envelope's `data` and `columns` unconditionally — here in the case where
    every row's primary value already appears verbatim in the model's text,
    so no bullet list is rebuilt and the text is unchanged. -/
theorem format_response_detail_clears_data (question sql rtxt : Str) (results : List Row)
    (columns : List Str) (total_count : Option Int) (jloads : Str → JloadsResult)
    (p0 : ParsedResp) (t0 : Str)
    (hj : jloads (clean_response_text rtxt) = .dict p0)
    (ht : p0.text = .str t0)
    (hv : p0.visualization = .vstr (lit "none"))
    (hd : isDetailCols columns = true)
    (h60 : results.length ≤ 60)
    (hmiss : missingValues results (replaceEscQuote t0) = []) :
    format_response question sql results columns total_count (.ok rtxt) jloads =
      { text := .str (replaceEscQuote t0), visualization := .vstr (lit "none"),
        data := some [], columns := some [],
        sql := some sql, row_count := some results.length } := by
  have hp : parse_layers results columns jloads (clean_response_text rtxt) = .dict p0 := by
    unfold parse_layers; rw [hj]
  have hfin : finalize results columns (.dict p0) =
      .ok { text := .str (replaceEscQuote t0), visualization := .vstr (lit "none"),
            data := some [], columns := some [] } := by
    simp only [finalize, ht, hv]
    have hA : ¬ (VizField.vstr (lit "none") = VizField.vstr (lit "table") ∧
        15 < results.length) := by
      rintro ⟨h1, -⟩; exact absurd h1 (by decide)
    rw [if_neg hA]
    have hB : ¬ (isDetailCols columns = true ∧
        VizField.vstr (lit "none") ≠ VizField.vstr (lit "none") ∧
        VizField.vstr (lit "none") ≠ VizField.vstr (lit "table")) := by
      rintro ⟨-, h2, -⟩; exact h2 rfl
    rw [if_neg hB]
    have hC : isDetailCols columns = true ∧
        VizField.vstr (lit "none") = VizField.vstr (lit "none") ∧
        results.length ≤ 60 := ⟨hd, rfl, h60⟩
    rw [if_pos hC]
    have hD : ¬ (missingValues results (replaceEscQuote t0) ≠ []) := by
      simp [hmiss]
    simp only [if_neg hD]
  unfold format_response
  rw [show format_core results columns (Except.ok rtxt) jloads =
        finalize results columns
          (parse_layers results columns jloads (clean_response_text rtxt)) from rfl,
      hp, hfin]

/-- C7: with visualization `none`, a detail column set and at most 60 rows,
    if some row's primary value does not literally appear in the model's
    text, the deterministic bullet list built by `rebuilt_text` (one entry
    per row, with the location field and the truncated observation excerpt)
    is appended to the text, `data` and `columns` are cleared, and
    `row_count` still equals the original row count. -/
theorem format_response_detail_rebuild (question sql rtxt : Str) (results : List Row)
    (columns : List Str) (total_count : Option Int) (jloads : Str → JloadsResult)
    (p0 : ParsedResp) (t0 t2 : Str)
    (hj : jloads (clean_response_text rtxt) = .dict p0)
    (ht : p0.text = .str t0)
    (hv : p0.visualization = .vstr (lit "none"))
    (hd : isDetailCols columns = true)
    (h60 : results.length ≤ 60)
    (hmiss : missingValues results (replaceEscQuote t0) ≠ [])
    (hreb : rebuilt_text results (replaceEscQuote t0) = .ok t2) :
    format_response question sql results columns total_count (.ok rtxt) jloads =
      { text := .str t2, visualization := .vstr (lit "none"),
        data := some [], columns := some [],
        sql := some sql, row_count := some results.length } := by
  have hp : parse_layers results columns jloads (clean_response_text rtxt) = .dict p0 := by
    unfold parse_layers; rw [hj]
  have hfin : finalize results columns (.dict p0) =
      .ok { text := .str t2, visualization := .vstr (lit "none"),
            data := some [], columns := some [] } := by
    simp only [finalize, ht, hv]
    have hA : ¬ (VizField.vstr (lit "none") = VizField.vstr (lit "table") ∧
        15 < results.length) := by
      rintro ⟨h1, -⟩; exact absurd h1 (by decide)
    rw [if_neg hA]
    have hB : ¬ (isDetailCols columns = true ∧
        VizField.vstr (lit "none") ≠ VizField.vstr (lit "none") ∧
        VizField.vstr (lit "none") ≠ VizField.vstr (lit "table")) := by
      rintro ⟨-, h2, -⟩; exact h2 rfl
    rw [if_neg hB]
    have hC : isDetailCols columns = true ∧
        VizField.vstr (lit "none") = VizField.vstr (lit "none") ∧
        results.length ≤ 60 := ⟨hd, rfl, h60⟩
    rw [if_pos hC]
    simp only [if_pos hmiss, hreb]
  unfold format_response
  rw [show format_core results columns (Except.ok rtxt) jloads =
        finalize results columns
          (parse_layers results columns jloads (clean_response_text rtxt)) from rfl,
      hp, hfin]

/-- Witness for C7: two rows, both primary values missing from the model
    text; the appended list carries the shop name and the observation
    excerpt, the empty observation is omitted, data is cleared and
    `row_count` stays 2. -/
theorem format_response_detail_rebuild_witness :
    format_response [] (lit "SELECT nr_reclamatie, magazin, observatii FROM complaints")
      [[(lit "nr_reclamatie", Value.vint 97246), (lit "magazin", Value.vstr (lit "Brasov")),
        (lit "observatii", Value.vstr (lit "pazie defecta"))],
       [(lit "nr_reclamatie", Value.vint 97247), (lit "magazin", Value.vstr (lit "Militari")),
        (lit "observatii", Value.vstr (lit ""))]]
      [lit "nr_reclamatie", lit "magazin", lit "observatii"] none
      (.ok (lit "Am identificat reclamatiile."))
      (fun _ => .dict { text := .str (lit "Am identificat reclamatiile."),
                        visualization := .vstr (lit "none") }) =
      { text := .str (lit "Am identificat reclamatiile.\n\n**Lista detaliată (2 înregistrări):**\n• 97246 (Brasov) - pazie defecta\n• 97247 (Militari)"),
        visualization := .vstr (lit "none"),
        data := some [], columns := some [],
        sql := some (lit "SELECT nr_reclamatie, magazin, observatii FROM complaints"),
        row_count := some 2 } := by
  have h := format_response_detail_rebuild
    [] (lit "SELECT nr_reclamatie, magazin, observatii FROM complaints")
    (lit "Am identificat reclamatiile.")
    [[(lit "nr_reclamatie", Value.vint 97246), (lit "magazin", Value.vstr (lit "Brasov")),
      (lit "observatii", Value.vstr (lit "pazie defecta"))],
     [(lit "nr_reclamatie", Value.vint 97247), (lit "magazin", Value.vstr (lit "Militari")),
      (lit "observatii", Value.vstr (lit ""))]]
    [lit "nr_reclamatie", lit "magazin", lit "observatii"] none
    (fun _ => .dict { text := .str (lit "Am identificat reclamatiile."),
                      visualization := .vstr (lit "none") })
    { text := .str (lit "Am identificat reclamatiile."),
      visualization := .vstr (lit "none") }
    (lit "Am identificat reclamatiile.")
    (lit "Am identificat reclamatiile.\n\n**Lista detaliată (2 înregistrări):**\n• 97246 (Brasov) - pazie defecta\n• 97247 (Militari)")
    rfl rfl rfl (by decide) (by decide) (by decide) rfl
  simpa using h

/-- Witness for C10: the single primary value `5` appears in the text, no
    list is rebuilt, yet data and columns are cleared. -/
theorem format_response_detail_clears_data_witness :
    format_response [] (lit "SELECT nr_reclamatie FROM complaints")
      [[(lit "nr_reclamatie", Value.vint 5)]]
      [lit "nr_reclamatie"] none
      (.ok (lit "Nr 5"))
      (fun _ => .dict { text := .str (lit "Nr 5"),
                        visualization := .vstr (lit "none") }) =
      { text := .str (lit "Nr 5"), visualization := .vstr (lit "none"),
        data := some [], columns := some [],
        sql := some (lit "SELECT nr_reclamatie FROM complaints"),
        row_count := some 1 } := by
  have h := format_response_detail_clears_data
    [] (lit "SELECT nr_reclamatie FROM complaints") (lit "Nr 5")
    [[(lit "nr_reclamatie", Value.vint 5)]]
    [lit "nr_reclamatie"] none
    (fun _ => .dict { text := .str (lit "Nr 5"),
                      visualization := .vstr (lit "none") })
    { text := .str (lit "Nr 5"), visualization := .vstr (lit "none") }
    (lit "Nr 5")
    rfl rfl rfl (by decide) (by decide) (by decide)
  simpa using h

/-- The envelope always carries the executed SQL and the input row count,
    on both the normal and the catch-all path (lines 531-532 and 536-544). -/
theorem format_response_sql_rc (question sql : Str) (results : List Row)
    (columns : List Str) (total_count : Option Int) (resp : Except Str Str)
    (jloads : Str → JloadsResult) :
    (format_response question sql results columns total_count resp jloads).sql = some sql ∧
    (format_response question sql results columns total_count resp jloads).row_count
      = some results.length := by
  unfold format_response
  cases format_core results columns resp jloads <;> exact ⟨rfl, rfl⟩

/-- C1: when the primary result has at least 150 rows (and the count
    rewrite does not hit the uncaught IndexError), the aggregation fallback
    is attempted exactly once; if the secondary completion yields a
    SELECT/WITH query that executes without error and returns rows, its
    rows and columns replace the primary result and the envelope's sql is
    the aggregated SQL, with the true total passed to the Formatter; on any
    failure of the fallback the primary capped result is formatted as-is
    with the primary SQL, still with the true total. -/
theorem chat_aggregation_fallback (question : Str) (llmSql llmChart llmFmt : Except Str Str)
    (jloads : Str → JloadsResult) (store : Str → Except Str StoreResult)
    (sql : Str) (total : Int)
    (hsql : generate_sql llmSql = .ok sql)
    (hexec : (execute_query store sql).2.2 = none)
    (h150 : 150 ≤ (execute_query store sql).1.length)
    (htot : true_total store sql (execute_query store sql).1.length = .ok total) :
    chatChartAttempts llmSql store = 1 ∧
    (∀ agg_sql, generate_chart_query llmChart = some agg_sql →
      (execute_query store agg_sql).2.2 = none → (execute_query store agg_sql).1 ≠ [] →
      chat question llmSql llmChart llmFmt jloads store =
        .ok (format_response question agg_sql (execute_query store agg_sql).1
          (execute_query store agg_sql).2.1 (some total) llmFmt jloads) ∧
      (format_response question agg_sql (execute_query store agg_sql).1
          (execute_query store agg_sql).2.1 (some total) llmFmt jloads).sql
        = some agg_sql) ∧
    (∀ agg_sql, generate_chart_query llmChart = some agg_sql →
      ¬ ((execute_query store agg_sql).2.2 = none ∧ (execute_query store agg_sql).1 ≠ []) →
      chat question llmSql llmChart llmFmt jloads store =
        .ok (format_response question sql (execute_query store sql).1
          (execute_query store sql).2.1 (some total) llmFmt jloads)) ∧
    (generate_chart_query llmChart = none →
      chat question llmSql llmChart llmFmt jloads store =
        .ok (format_response question sql (execute_query store sql).1
          (execute_query store sql).2.1 (some total) llmFmt jloads)) ∧
    (format_response question sql (execute_query store sql).1
        (execute_query store sql).2.1 (some total) llmFmt jloads).sql = some sql := by
  have hne : (execute_query store sql).1 ≠ [] := by
    intro hnil
    rw [hnil] at h150
    simp at h150
  refine ⟨?_, ?_, ?_, ?_, ?_⟩
  · unfold chatChartAttempts
    rw [hsql]
    simp only [hexec, if_neg hne, if_pos h150, htot]
  · intro agg_sql hagg hA hB
    refine ⟨?_, (format_response_sql_rc _ _ _ _ _ _ _).1⟩
    unfold chat
    rw [hsql]
    simp only [hexec, if_neg hne, if_pos h150, htot, hagg, if_pos (And.intro hA hB)]
  · intro agg_sql hagg hF
    unfold chat
    rw [hsql]
    simp only [hexec, if_neg hne, if_pos h150, htot, hagg, if_neg hF]
  · intro hagg
    unfold chat
    rw [hsql]
    simp only [hexec, if_neg hne, if_pos h150, htot, hagg]
  · exact (format_response_sql_rc _ _ _ _ _ _ _).1

/-- Witness for C1 on a concrete store: 150 primary rows, a count rewrite
    yielding 9321, and a successful aggregated query that replaces the
    primary result. -/
theorem chat_aggregation_fallback_witness :
    chatChartAttempts (.ok (lit "SELECT nr_comanda FROM complaints LIMIT 200"))
      (fun s =>
        if s == lit "SELECT nr_comanda FROM complaints LIMIT 200" then
          .ok ⟨List.replicate 150 [Value.vint 7], [lit "nr_comanda"]⟩
        else if s == lit "SELECT COUNT(*) as total FROM complaints" then
          .ok ⟨[[Value.vint 9321]], [lit "total"]⟩
        else
          .ok ⟨[[Value.vstr (lit "MOBILIER GENERAL"), Value.vint 500]],
               [lit "raion", lit "numar"]⟩) = 1 ∧
    chat [] (.ok (lit "SELECT nr_comanda FROM complaints LIMIT 200"))
      (.ok (lit "SELECT raion, COUNT(*) as numar FROM complaints GROUP BY raion LIMIT 12"))
      (.error (lit "x")) (fun _ => .fail)
      (fun s =>
        if s == lit "SELECT nr_comanda FROM complaints LIMIT 200" then
          .ok ⟨List.replicate 150 [Value.vint 7], [lit "nr_comanda"]⟩
        else if s == lit "SELECT COUNT(*) as total FROM complaints" then
          .ok ⟨[[Value.vint 9321]], [lit "total"]⟩
        else
          .ok ⟨[[Value.vstr (lit "MOBILIER GENERAL"), Value.vint 500]],
               [lit "raion", lit "numar"]⟩) =
      .ok (format_response []
        (lit "SELECT raion, COUNT(*) as numar FROM complaints GROUP BY raion LIMIT 12")
        [[(lit "raion", Value.vstr (lit "MOBILIER GENERAL")), (lit "numar", Value.vint 500)]]
        [lit "raion", lit "numar"] (some 9321) (.error (lit "x")) (fun _ => .fail)) := by
  have h := chat_aggregation_fallback []
    (.ok (lit "SELECT nr_comanda FROM complaints LIMIT 200"))
    (.ok (lit "SELECT raion, COUNT(*) as numar FROM complaints GROUP BY raion LIMIT 12"))
    (.error (lit "x")) (fun _ => .fail)
    (fun s =>
      if s == lit "SELECT nr_comanda FROM complaints LIMIT 200" then
        .ok ⟨List.replicate 150 [Value.vint 7], [lit "nr_comanda"]⟩
      else if s == lit "SELECT COUNT(*) as total FROM complaints" then
        .ok ⟨[[Value.vint 9321]], [lit "total"]⟩
      else
        .ok ⟨[[Value.vstr (lit "MOBILIER GENERAL"), Value.vint 500]],
             [lit "raion", lit "numar"]⟩)
    (lit "SELECT nr_comanda FROM complaints LIMIT 200") 9321
    rfl rfl (by decide) rfl
  refine ⟨h.1, ?_⟩
  have h2 := (h.2.1 (lit "SELECT raion, COUNT(*) as numar FROM complaints GROUP BY raion LIMIT 12")
    rfl rfl (by decide)).1
  simpa using h2

end RagSpec
